import Mathlib

/-!
# Chambre Sonore — verification of the perception-and-dispatch core

Shallow embedding, in Lean 4, of the parts of the `chambresonore`
repository that the specification's testable properties talk about:

* `src/src/cell_config.py` — per-cell configuration entries and the
  clone / paste operations (`CellConfigEntry.clone`, `apply_from`);
* `src/src/validate_room_and_matrix.py` (duplicated verbatim in
  `src/src/grid_ui.py`) — room/matrix validation;
* `src/src/zone_mapper_3d.py` — 3D reconstruction, ground projection,
  person localization and cell mapping (`ZoneMapper3D`);
* `src/src/grid_ui.py` — the calibration commit step and the
  audio hand-over logic (`handle_zone_activity_3d`), together with the
  method surface of `src/src/sound_engine.py`'s `SoundEngine`;
* `src/V1/src/orbbec/dmx_audio_bridge.py` — the per-cell activation
  debouncer (`DMXAudioBridge._update_from_active_cells`) and the DMX
  output error handling (`DMXOutput.flush`).

Python floats are modelled as exact rationals (`ℚ`), Python ints as
`ℤ`/`ℕ`; fallible code returns `Except`.  Every definition is
executable, so each theorem can be checked on concrete inputs.
-/

namespace CellConfig

/-- `DMXConfig` dataclass of `src/src/cell_config.py` (defaults
`universe=1, address=1, channels=3, color=(255,255,255)`); the source
field `universe` is a Lean keyword and is rendered here as `univ`. -/
structure DMXConfig where
  univ : ℤ := 1
  address : ℤ := 1
  channels : ℤ := 3
  color : ℤ × ℤ × ℤ := (255, 255, 255)
deriving DecidableEq, Repr

/-- `CellConfigEntry` dataclass of `src/src/cell_config.py`: identity,
world bounds in metres, audio settings, DMX settings, `active` flag
(defaulting to `True`). -/
structure CellConfigEntry where
  cell_id : String
  name : String
  x_min : ℚ
  x_max : ℚ
  y_min : ℚ
  y_max : ℚ
  wav : String := ""
  volume : ℚ := 1
  dmx : DMXConfig := {}
  active : Bool := true
deriving DecidableEq, Repr

/-- `CellConfigEntry.clone` (`src/src/cell_config.py` lines 48–64):
builds a fresh entry passing every field except `active`, which
therefore takes the dataclass default `True`. -/
def CellConfigEntry.clone (e : CellConfigEntry) : CellConfigEntry :=
  { cell_id := e.cell_id
    name := e.name
    x_min := e.x_min
    x_max := e.x_max
    y_min := e.y_min
    y_max := e.y_max
    wav := e.wav
    volume := e.volume
    dmx := { univ := e.dmx.univ
             address := e.dmx.address
             channels := e.dmx.channels
             color := e.dmx.color } }

/-- `CellConfigEntry.apply_from` (`src/src/cell_config.py` lines 66–75):
mutates `self` in place, copying `name`, `wav`, `volume` and the DMX
settings from `other`; `cell_id`, the world bounds and `active` are
left untouched.  Modelled functionally: the result is the updated
`self`. -/
def CellConfigEntry.apply_from (self other : CellConfigEntry) : CellConfigEntry :=
  { self with
    name := other.name
    wav := other.wav
    volume := other.volume
    dmx := { univ := other.dmx.univ
             address := other.dmx.address
             channels := other.dmx.channels
             color := other.dmx.color } }

end CellConfig

namespace ZoneMapper3D

/-- `np.median` on a one-dimensional array: sort ascending, take the
middle element for odd length, the mean of the two middle elements for
even length (`numpy` convention).  Used by
`ZoneMapper3D.detect_person_position`. -/
def npMedian (xs : List ℚ) : ℚ :=
  let sorted := xs.insertionSort (· ≤ ·)
  let n := xs.length
  if n % 2 = 1 then sorted.getD (n / 2) 0
  else (sorted.getD (n / 2 - 1) 0 + sorted.getD (n / 2) 0) / 2

/-- `numpy`'s `ndarray.size` of an `(N, 2)` ground array: the number of
scalar elements, i.e. `2 * N`, **not** the number of points.  This is
the quantity `detect_person_position` compares with 20. -/
def ndSize (pts : List (ℚ × ℚ)) : Nat := 2 * pts.length

/-- `ZoneMapper3D.detect_person_position` (`src/src/zone_mapper_3d.py`
lines 220–248): `None` when the ground array is `None` or its
flattened size is `< 20`; otherwise the pair of coordinate medians.
The source's `isfinite` sanity check on the medians is vacuous in this
exact-rational model (a median of rationals is always finite). -/
def detect_person_position (ground_xy : Option (List (ℚ × ℚ))) : Option (ℚ × ℚ) :=
  match ground_xy with
  | none => none
  | some pts =>
    if ndSize pts < 20 then none
    else
      let x_med := npMedian (pts.map Prod.fst)
      let y_med := npMedian (pts.map Prod.snd)
      some (x_med, y_med)

/-- `ZoneMapper3D.project_to_ground` (`src/src/zone_mapper_3d.py`
lines 121–216), translated pointwise over the cloud.  The non-finite
filter of the source is vacuous over `ℚ`; `depth_scale = 1.0`; the
`depth_mask` (`0.5 < Zc_scaled < 4.5`) is computed in the source but
never applied, so it is omitted; `x_abs = cam_wall_dist_m + Xc + 6.15`;
the emission filter keeps `0 < x_abs < 3.6` and `0.7 < y_abs < 4.5`
(hard-coded constants in the source). -/
def project_to_ground (cam_wall_dist_m : ℚ) (cloud : List (ℚ × ℚ × ℚ)) :
    List (ℚ × ℚ) :=
  let depth_scale : ℚ := 1
  cloud.filterMap fun p =>
    let Xc := p.1
    let Zc := p.2.2
    let Zc_scaled := Zc * depth_scale
    let x_abs := cam_wall_dist_m + Xc + 615/100
    let y_abs := Zc_scaled
    if 0 < x_abs ∧ x_abs < 36/10 ∧ 7/10 < y_abs ∧ y_abs < 45/10 then
      some (x_abs, y_abs)
    else none

/-- `np.eye(3)`: the 3×3 identity matrix. -/
def eye3 : Fin 3 → Fin 3 → ℚ := fun i j => if i = j then 1 else 0

/-- `ZoneMapper3D._update_rotation_matrix` (`src/src/zone_mapper_3d.py`
lines 71–77): the source computes `pitch_rad = np.radians(cam_angle_deg)`
but never uses it — `self.R` is assigned `np.eye(3)` unconditionally,
so the stored rotation is the identity for every pitch angle. -/
def update_rotation_matrix (_cam_angle_deg : ℚ) : Fin 3 → Fin 3 → ℚ :=
  eye3

/-- Multiplication of a row-vector point by `R.T`, i.e. `pts @ R.T` of
the source restricted to one point: component `i` of the result is
`Σⱼ R i j * p j`. -/
def applyR (R : Fin 3 → Fin 3 → ℚ) (p : ℚ × ℚ × ℚ) : ℚ × ℚ × ℚ :=
  (R 0 0 * p.1 + R 0 1 * p.2.1 + R 0 2 * p.2.2,
   R 1 0 * p.1 + R 1 1 * p.2.1 + R 1 2 * p.2.2,
   R 2 0 * p.1 + R 2 1 * p.2.1 + R 2 2 * p.2.2)

/-- `ZoneMapper3D.compute_point_cloud` (`src/src/zone_mapper_3d.py`
lines 80–115): for each pixel `(u, v)` with depth `d` millimetres,
keep it when `d/1000 > 0.2` and back-project through the pinhole model
`Xc = (u − cx)·d/fx`, `Yc = (v − cy)·d/fy`, `Zc = d` (metres), then
apply the stored rotation (`pts @ R.T`).  The depth frame is a list of
rows, row index `v`, column index `u`. -/
def compute_point_cloud (fx fy cx cy cam_angle_deg : ℚ)
    (depth_data : List (List ℚ)) : List (ℚ × ℚ × ℚ) :=
  let R := update_rotation_matrix cam_angle_deg
  (depth_data.enum.map fun vrow =>
    vrow.2.enum.filterMap fun ud =>
      let d := ud.2 / 1000
      if d > 1/5 then
        let Xc := ((ud.1 : ℚ) - cx) * d / fx
        let Yc := ((vrow.1 : ℚ) - cy) * d / fy
        let Zc := d
        some (applyR R (Xc, Yc, Zc))
      else none).flatten

/-- The pitch rotation about the camera x-axis that §4.3 of the
specification prescribes, parameterized by the cosine and sine of the
pitch angle (so it stays in `ℚ`): `(x, y, z) ↦
(x, cos·y − sin·z, sin·y + cos·z)`.  Spec-side definition, used to
compare the source behaviour with the claimed one. -/
def specRotX (cosp sinp : ℚ) (p : ℚ × ℚ × ℚ) : ℚ × ℚ × ℚ :=
  (p.1, cosp * p.2.1 - sinp * p.2.2, sinp * p.2.1 + cosp * p.2.2)

/-- `ZoneMapper3D.map_to_cell` (`src/src/zone_mapper_3d.py` lines
252–291).  The two lines that would add `offset_x` / `offset_y` to the
position are **commented out** in the source, so the offsets are
accepted here as arguments only to record that fact: they do not enter
the computation.  `int(x // cell_w)` on non-negative operands is the
floor of the quotient. -/
def map_to_cell (_offset_x _offset_y : ℚ) (position_xy : Option (ℚ × ℚ))
    (room_width_m room_depth_m : ℚ) (rows cols : ℤ) : Option (ℤ × ℤ) :=
  match position_xy with
  | none => none
  | some (x, y) =>
    if 0 ≤ x ∧ x < room_width_m ∧ 0 ≤ y ∧ y < room_depth_m then
      let cell_w := room_width_m / (cols : ℚ)
      let cell_h := room_depth_m / (rows : ℚ)
      let c : ℤ := ⌊x / cell_w⌋
      let r : ℤ := ⌊y / cell_h⌋
      some (max 0 (min (rows - 1) r), max 0 (min (cols - 1) c))
    else none

end ZoneMapper3D

namespace RoomValidation

/-- The pieces of the short validation message, one constructor per
message the source can produce (`src/src/validate_room_and_matrix.py`
lines 34–76; the same function is duplicated verbatim in
`src/src/grid_ui.py` lines 57–103).  The empty message `""` is the
empty list. -/
inductive Msg where
  | widthTooSmall
  | depthTooSmall
  | colsClamped (cols_input cols_max : ℤ)
  | rowsClamped (depth_m : ℚ) (rows_max : ℤ)
deriving DecidableEq, Repr

/-- Result dictionary of `validate_room_and_matrix`. -/
structure ValidateResult where
  width : ℚ
  depth : ℚ
  cols : ℤ
  rows : ℤ
  message : List Msg
deriving DecidableEq, Repr

/-- `validate_room_and_matrix(width_m, depth_m, cols_input, rows_input)`
(`src/src/validate_room_and_matrix.py` lines 34–76): clamp `width_m`
and `depth_m` to `≥ 1.0` (appending a message), compute
`cols_max = floor(width_m)` and `rows_max = floor(depth_m)`, clamp the
requested `cols` (this branch *replaces* the message, as in the
source: `message = f"Dépassement …"`) and `rows` (this branch appends). -/
def validate_room_and_matrix (width_m depth_m : ℚ) (cols_input rows_input : ℤ) :
    ValidateResult :=
  let w1 : ℚ := if width_m < 1 then 1 else width_m
  let m1 : List Msg := if width_m < 1 then [.widthTooSmall] else []
  let d1 : ℚ := if depth_m < 1 then 1 else depth_m
  let m2 : List Msg := if depth_m < 1 then m1 ++ [.depthTooSmall] else m1
  let cols_max : ℤ := ⌊w1⌋
  let rows_max : ℤ := ⌊d1⌋
  let cols : ℤ := if cols_input > cols_max then cols_max else cols_input
  let m3 : List Msg :=
    if cols_input > cols_max then [.colsClamped cols_input cols_max] else m2
  let rows : ℤ := if rows_input > rows_max then rows_max else rows_input
  let m4 : List Msg :=
    if rows_input > rows_max then m3 ++ [.rowsClamped d1 rows_max] else m3
  ⟨w1, d1, cols, rows, m4⟩

end RoomValidation

namespace SoundEngineModel

/-- The public method surface of `SoundEngine`
(`src/src/sound_engine.py`): the methods the class actually defines.
Note that `release_cell` — the method `GridUI.handle_zone_activity_3d`
calls — is **not** among them; the closest is `stop_cell`. -/
def soundEngineMethods : List String :=
  ["play_for_cell", "stop_cell", "stop_all", "shutdown"]

end SoundEngineModel

namespace GridUI

open CellConfig

/-- A command sent to the sound engine by the UI tick. -/
inductive SoundCmd where
  | releaseCell (cell_id : String)
  | playForCell (cell_id : String) (wav : String)
deriving DecidableEq, Repr

/-- A Python runtime error (attribute lookup failure on an object). -/
inductive PyError where
  | attributeError (method : String)
deriving DecidableEq, Repr

/-- `f"{r},{c}"`, the per-cell identifier used by `grid_ui.py`. -/
def rcKey (r c : ℕ) : String := toString r ++ "," ++ toString c

/-- The mutable state that `GridUI.handle_zone_activity_3d` reads and
writes: `self._last_active_cell` (a cell-id string or `None`). -/
structure ZoneState where
  last_active_cell : Option String
deriving DecidableEq, Repr

/-- `GridUI.handle_zone_activity_3d` (`src/src/grid_ui.py` lines
745–772), with the cell-configuration lookup passed in as a function.
Returns the list of sound-engine commands issued, in order, and the
new state — or the Python error the call raises.  The source line
`self.sound_engine.release_cell(self._last_active_cell)` resolves the
attribute `release_cell` on the `SoundEngine` instance; modelled by a
lookup in `soundEngineMethods`, failing with `AttributeError` when the
method does not exist (it does not: `SoundEngine` defines `stop_cell`). -/
def handle_zone_activity_3d
    (get_cell : ℕ → ℕ → Option CellConfigEntry)
    (st : ZoneState) (cell_rc : Option (ℕ × ℕ)) :
    Except PyError (List SoundCmd × ZoneState) :=
  match cell_rc with
  | none => .ok ([], st)
  | some (r, c) =>
    match get_cell r c with
    | none => .ok ([], st)
    | some cell_info =>
      let cell_id := rcKey r c
      if st.last_active_cell = some cell_id then .ok ([], st)
      else
        match st.last_active_cell with
        | some prev =>
          if "release_cell" ∈ SoundEngineModel.soundEngineMethods then
            -- (dead branch: `release_cell` is not a `SoundEngine` method)
            let offs := [SoundCmd.releaseCell prev]
            let ons := if cell_info.wav ≠ "" then
              [SoundCmd.playForCell cell_id cell_info.wav] else []
            .ok (offs ++ ons, ⟨some cell_id⟩)
          else .error (.attributeError "release_cell")
        | none =>
          let ons := if cell_info.wav ≠ "" then
            [SoundCmd.playForCell cell_id cell_info.wav] else []
          .ok (ons, ⟨some cell_id⟩)

/-- The calibration commit computed in phase 2 of
`GridUI.update_frame_and_zones` (`src/src/grid_ui.py` lines 560–601):
`cell_w = room_width_m / grid_cols`, `cell_h = room_depth_m / grid_rows`,
target `(cell_w · 1.5, cell_h · 1.0)` (the midpoint between cells
`(1,1)` and `(1,2)`), committed offset `(target − observed)`, stored
into `mapper3d.offset_x / offset_y`. -/
def calibration_compute (room_width_m room_depth_m : ℚ) (grid_rows grid_cols : ℤ)
    (pos : ℚ × ℚ) : ℚ × ℚ :=
  let cell_w := room_width_m / (grid_cols : ℚ)
  let cell_h := room_depth_m / (grid_rows : ℚ)
  let target_x := cell_w * (3/2)
  let target_y := cell_h * 1
  (target_x - pos.1, target_y - pos.2)

end GridUI

namespace DmxAudioBridge

/-- `MATRIX_ROWS` (`src/V1/src/orbbec/dmx_audio_bridge.py` line 60). -/
def MATRIX_ROWS : ℕ := 6

/-- `MATRIX_COLS` (line 61). -/
def MATRIX_COLS : ℕ := 6

/-- `self._ACTIVATE_N` (`DMXAudioBridge.__init__`, line 461): frames of
consecutive raw activity required to switch a cell on. -/
def ACTIVATE_N : ℕ := 3

/-- `self._DEACTIVATE_N` (line 462): frames of consecutive raw
inactivity required to switch a cell off. -/
def DEACTIVATE_N : ℕ := 6

/-- Per-cell slice of the bridge state: `self.state[r][c]`,
`self._on_count[r][c]`, `self._off_count[r][c]`. -/
structure CellSt where
  state : Bool
  on_count : ℕ
  off_count : ℕ
deriving DecidableEq, Repr

/-- Initial per-cell state (`DMXAudioBridge.__init__`, lines 456–459):
inactive, both counters zero. -/
def initCell : CellSt := ⟨false, 0, 0⟩

/-- The body of the per-cell loop of
`DMXAudioBridge._update_from_active_cells` (lines 478–504), for one
cell, given whether the cell is in this frame's raw `active_set`.
When seen active: `on_count = min(on_count+1, 255)`, `off_count = 0`,
and the cell switches on if it was off and `on_count ≥ ACTIVATE_N`.
When seen inactive: `off_count = min(off_count+1, 255)`, `on_count = 0`,
and the cell switches off if it was on and `off_count ≥ DEACTIVATE_N`.
(The audio note-on/off and the DMX write that follow the filtered
state feed nothing back into this state.) -/
def updateCell (is_active_now : Bool) (s : CellSt) : CellSt :=
  if is_active_now then
    let onc := min (s.on_count + 1) 255
    let st := if !s.state && decide (onc ≥ ACTIVATE_N) then true else s.state
    ⟨st, onc, 0⟩
  else
    let offc := min (s.off_count + 1) 255
    let st := if s.state && decide (offc ≥ DEACTIVATE_N) then false else s.state
    ⟨st, 0, offc⟩

/-- The bridge's filter state: one `CellSt` per grid position, the
6×6 arrays modelled as a total function (positions outside the grid
are never touched by the update loops). -/
def Grid : Type := ℕ → ℕ → CellSt

/-- All-inactive initial grid (`DMXAudioBridge.__init__`). -/
def initGrid : Grid := fun _ _ => initCell

/-- One call of `_update_from_active_cells(active_cells)`: every cell
`(r, c)` with `r < MATRIX_ROWS`, `c < MATRIX_COLS` is updated with
`is_active_now = (r, c) ∈ set(active_cells)`. -/
def updateGrid (active_cells : List (ℕ × ℕ)) (g : Grid) : Grid :=
  fun r c =>
    if r < MATRIX_ROWS ∧ c < MATRIX_COLS then
      updateCell (decide ((r, c) ∈ active_cells)) (g r c)
    else g r c

/-- The bridge run on a whole sequence of per-tick raw
`active_cells` inputs, starting from a given grid (the `run` loop
calls `_update_from_active_cells` once per tick). -/
def runGrid (inputs : List (List (ℕ × ℕ))) (g : Grid) : Grid :=
  inputs.foldl (fun g inp => updateGrid inp g) g

/-- Number of cells of the grid whose filtered state is active. -/
def activeCount (g : Grid) : ℕ :=
  (List.range MATRIX_ROWS).foldl
    (fun acc r => acc + (List.range MATRIX_COLS).countP (fun c => (g r c).state)) 0

/-- A single cell's trajectory under a sequence of per-tick
`is_active_now` booleans (the per-cell projection of `runGrid`). -/
def runCell (bs : List Bool) (s : CellSt) : CellSt :=
  bs.foldl (fun s b => updateCell b s) s

end DmxAudioBridge

namespace DMXOutput

/-- The error-handling state of `DMXOutput`
(`src/V1/src/orbbec/dmx_audio_bridge.py` lines 255–268):
`self._simulated` and `self._send_errors`.  (The 512-byte buffer does
not influence this state and is omitted.) -/
structure St where
  simulated : Bool
  send_errors : ℕ
deriving DecidableEq, Repr

/-- `DMXOutput.__init__`: `_send_errors = 0`, `_simulated = not HAS_OLA`
(assuming the OLA client construction succeeds when present). -/
def init (has_ola : Bool) : St := ⟨!has_ola, 0⟩

/-- `DMXOutput.flush` (lines 278–297), with the transport outcome of
the `SendDmx` call passed in (`fail = true` means the call raised).
In simulated mode the method only logs and returns.  Otherwise, on
failure `_send_errors` is incremented and, when `_send_errors > 5`,
the output switches permanently to simulated mode.  Nothing resets
`_send_errors` on success, and no `reset` method exists on the class. -/
def flush (fail : Bool) (s : St) : St :=
  if s.simulated then s
  else if fail then
    let e := s.send_errors + 1
    ⟨if e > 5 then true else s.simulated, e⟩
  else s

/-- A sequence of `flush` calls with the given per-call transport
outcomes. -/
def runFlushes (fails : List Bool) (s : St) : St :=
  fails.foldl (fun s f => flush f s) s

end DMXOutput

section Claims

open CellConfig RoomValidation ZoneMapper3D GridUI DmxAudioBridge DMXOutput

/-- **C10, counterexample.**  The claim states that pasting via
`apply_from` — like `clone` — copies `cell_id`, the name, the world
bounds, wav, volume and the DMX settings.  It does not: `apply_from`
copies only name, wav, volume and DMX.  At the concrete entries below,
pasting the source entry (cell_id `"0,0"`) onto the target (cell_id
`"1,1"`) leaves the target's `cell_id`, which differs from the
source's. -/
theorem c10_apply_from_does_not_copy_cell_id :
    (CellConfigEntry.apply_from
      { cell_id := "1,1", name := "dst", x_min := 5, x_max := 6, y_min := 5, y_max := 6 }
      { cell_id := "0,0", name := "src", x_min := 0, x_max := 1, y_min := 0, y_max := 1,
        wav := "a.wav", volume := 2, active := false }).cell_id ≠ "0,0" := by
  decide

/-- **C10, amended.**  `clone` copies `cell_id`, name, the world
bounds, wav, volume and the DMX settings, and the clone of any entry
has `active = true` even when the source's `active` is `false`;
`apply_from` copies only name, wav, volume and the DMX settings,
leaving the target's `cell_id`, world bounds and `active` flag
unchanged (so it, too, does not carry over the source's `active`). -/
theorem c10_clone_and_apply_from_fields (e t : CellConfigEntry) :
    e.clone.cell_id = e.cell_id ∧ e.clone.name = e.name ∧
    e.clone.x_min = e.x_min ∧ e.clone.x_max = e.x_max ∧
    e.clone.y_min = e.y_min ∧ e.clone.y_max = e.y_max ∧
    e.clone.wav = e.wav ∧ e.clone.volume = e.volume ∧ e.clone.dmx = e.dmx ∧
    e.clone.active = true ∧
    (t.apply_from e).name = e.name ∧ (t.apply_from e).wav = e.wav ∧
    (t.apply_from e).volume = e.volume ∧ (t.apply_from e).dmx = e.dmx ∧
    (t.apply_from e).cell_id = t.cell_id ∧
    (t.apply_from e).x_min = t.x_min ∧ (t.apply_from e).x_max = t.x_max ∧
    (t.apply_from e).y_min = t.y_min ∧ (t.apply_from e).y_max = t.y_max ∧
    (t.apply_from e).active = t.active :=
  ⟨rfl, rfl, rfl, rfl, rfl, rfl, rfl, rfl, rfl, rfl,
   rfl, rfl, rfl, rfl, rfl, rfl, rfl, rfl, rfl, rfl⟩

/-- **C9, confirmed.**  `validate_room_and_matrix` is idempotent on its
four numeric outputs: re-validating its own output `(width, depth,
cols, rows)` returns the same four values, and the message of the
second application is empty. -/
theorem c9_validate_idempotent (w d : ℚ) (c r : ℤ) :
    validate_room_and_matrix
      (validate_room_and_matrix w d c r).width
      (validate_room_and_matrix w d c r).depth
      (validate_room_and_matrix w d c r).cols
      (validate_room_and_matrix w d c r).rows =
    ⟨(validate_room_and_matrix w d c r).width,
     (validate_room_and_matrix w d c r).depth,
     (validate_room_and_matrix w d c r).cols,
     (validate_room_and_matrix w d c r).rows, []⟩ := by
  simp only [validate_room_and_matrix]
  split_ifs <;> simp_all

/-- **C3, counterexample.**  The claim states that any sequence of
fewer than 20 ground points makes the localizer return `None`.  A
sequence of 10 points (fewer than 20) already returns the medians:
`detect_person_position` compares `ndarray.size` — the number of
scalar elements of the `(N, 2)` array, i.e. `2·N` — with 20, so the
effective threshold is 10 points, not 20. -/
theorem c3_ten_points_not_none :
    (List.replicate 10 ((1:ℚ), (2:ℚ))).length < 20 ∧
    detect_person_position (some (List.replicate 10 ((1:ℚ), (2:ℚ)))) = some (1, 2) := by
  constructor
  · decide
  · norm_num [detect_person_position, ndSize, npMedian, List.replicate,
      List.insertionSort, List.orderedInsert]

/-- **C3, amended.**  For every sequence of fewer than **10** ground
points the localizer returns `None`; for every sequence of at least 10
points it returns exactly `(median of x coordinates, median of y
coordinates)` (the medians of rationals are always finite, so the
source's finiteness guard never fires in this model).  The threshold
is 10 because the source compares the flattened element count `2·N`
of the `(N, 2)` array with 20. -/
theorem c3_localizer_threshold (pts : List (ℚ × ℚ)) :
    (pts.length < 10 → detect_person_position (some pts) = none) ∧
    (10 ≤ pts.length →
      detect_person_position (some pts) =
        some (npMedian (pts.map Prod.fst), npMedian (pts.map Prod.snd))) := by
  constructor <;> intro h
  · simp only [detect_person_position, ndSize]
    rw [if_pos (by omega)]
  · simp only [detect_person_position, ndSize]
    rw [if_neg (by omega)]

/-- **C3, witness.**  The amended theorem applied at two concrete
inputs: the empty sequence (fewer than 10 points) yields `None`, and
ten copies of the point `(1, 2)` (at least 10 points) yield the
medians `(1, 2)`. -/
theorem c3_localizer_threshold_witness :
    detect_person_position (some ([] : List (ℚ × ℚ))) = none ∧
    detect_person_position (some (List.replicate 10 ((1:ℚ), (2:ℚ)))) =
      some (npMedian ((List.replicate 10 ((1:ℚ), (2:ℚ))).map Prod.fst),
            npMedian ((List.replicate 10 ((1:ℚ), (2:ℚ))).map Prod.snd)) :=
  ⟨(c3_localizer_threshold []).1 (by decide),
   (c3_localizer_threshold _).2 (by decide)⟩

/-- **C4, counterexample.**  The claim states that every emitted
ground point satisfies `0 < x < room_width_m` and
`0 < y < room_depth_m` with bounds derived from the configured room
dimensions.  The projection's bounds are hard-coded: with
`cam_wall_dist_m = 0.3` and the single camera point
`(Xc, Yc, Zc) = (−3.45, 0, 1)`, the stage emits the ground point
`(3, 1)`; for a configured room of width 2 m (a legal room, ≥ 1 m)
this violates `x < room_width_m`. -/
theorem c4_bounds_not_room_derived :
    project_to_ground (3/10) [((-69/20 : ℚ), 0, 1)] = [(3, 1)] ∧ ¬ ((3:ℚ) < 2) := by
  constructor
  · norm_num [project_to_ground, List.filterMap_cons]
  · norm_num

/-- **C4, amended.**  Every ground point `(x, y)` emitted by
`project_to_ground` satisfies `0 < x < 3.6` and `0.7 < y < 4.5` —
fixed constants in the source (together with a hard-coded `+6.15`
shift on `x`), independent of the configured room dimensions. -/
theorem c4_ground_point_bounds (wall : ℚ) (cloud : List (ℚ × ℚ × ℚ))
    (p : ℚ × ℚ) (hp : p ∈ project_to_ground wall cloud) :
    0 < p.1 ∧ p.1 < 36/10 ∧ 7/10 < p.2 ∧ p.2 < 45/10 := by
  simp only [project_to_ground, List.mem_filterMap] at hp
  obtain ⟨q, _, hq⟩ := hp
  split_ifs at hq with h
  obtain ⟨h1, h2, h3, h4⟩ := h
  cases hq
  exact ⟨by linarith, by linarith, by linarith, by linarith⟩

/-- **C4, witness.**  The amended theorem applied to the concrete
emitted point `(3, 1)` of the cloud `[(−3.45, 0, 1)]` with
`cam_wall_dist_m = 0.3`. -/
theorem c4_ground_point_bounds_witness :
    0 < (3:ℚ) ∧ (3:ℚ) < 36/10 ∧ 7/10 < (1:ℚ) ∧ (1:ℚ) < 45/10 :=
  c4_ground_point_bounds (3/10) [((-69/20 : ℚ), 0, 1)] (3, 1)
    (by norm_num [project_to_ground, List.filterMap_cons])

/-- **C5, code bug.**  The claim (and the docstring of
`_update_rotation_matrix` itself) says the point cloud is the pinhole
back-projection rotated by `R(pitch)` about the camera x-axis, so for
a nonzero pitch the output differs from the unrotated back-projection.
The source computes `pitch_rad` and then assigns `self.R = np.eye(3)`,
so the rotation is the identity for every pitch: at pitch 90° (where
`R(pitch)` maps `(x, y, z)` to `(x, −z, y)`), the default intrinsics
and the 1×1 frame `[[1000 mm]]`, the code returns exactly the
unrotated back-projection, which differs from the rotated point the
claim prescribes. -/
theorem c5_pitch_rotation_ignored :
    compute_point_cloud (3661/10) (3661/10) (3182/10) (2411/10) 90 [[1000]] =
      [(-3182/3661, -2411/3661, 1)] ∧
    specRotX 0 1 ((-3182/3661 : ℚ), -2411/3661, 1) = (-3182/3661, -1, -2411/3661) ∧
    ((-3182/3661, -2411/3661, 1) : ℚ × ℚ × ℚ) ≠ (-3182/3661, -1, -2411/3661) := by
  refine ⟨?_, ?_, ?_⟩
  · norm_num [compute_point_cloud, update_rotation_matrix, eye3, applyR, List.enum,
      List.filterMap_cons]
    refine ⟨by decide, by decide, ?_⟩
    rw [if_neg (by decide), if_neg (by decide)]
    norm_num
  · norm_num [specRotX]
  · norm_num

/-- **C6, code bug.**  After a completed calibration at observed
position `p = (1.2, 0.9)` in a 3 m × 3 m room with a 3×3 grid, the
committed offset equals `target − p` where `target = (1.5·cell_w,
1.0·cell_h) = (1.5, 1)` — that half of the claim holds.  But the claim
also requires a subsequent localization of `p` to map to the target
cell `(1, 1)` (the cell the target position itself maps to): the
offset-application lines in `map_to_cell` are commented out in the
source (and `GridUI._map_position_to_cell_local` ignores the offsets
too), so `p` still maps to cell `(0, 1)`. -/
theorem c6_calibration_offset_never_applied :
    calibration_compute 3 3 3 3 (6/5, 9/10) = (3/2 - 6/5, 1 - 9/10) ∧
    map_to_cell (3/2 - 6/5) (1 - 9/10) (some (6/5, 9/10)) 3 3 3 3 = some (0, 1) ∧
    map_to_cell 0 0 (some (3/2, 1)) 3 3 3 3 = some (1, 1) := by
  refine ⟨?_, ?_, ?_⟩
  · norm_num [calibration_compute]
  · have h1 : ⌊(9:ℚ)/10 / (3/3)⌋ = 0 := by
      rw [Int.floor_eq_zero_iff]
      constructor <;> norm_num
    have h2 : ⌊(6:ℚ)/5 / (3/3)⌋ = 1 := by
      rw [Int.floor_eq_iff]
      norm_num
    norm_num [map_to_cell, h1, h2]
  · have h1 : ⌊(1:ℚ) / (3/3)⌋ = 1 := by
      rw [Int.floor_eq_iff]
      norm_num
    have h2 : ⌊(3:ℚ)/2 / (3/3)⌋ = 1 := by
      rw [Int.floor_eq_iff]
      norm_num
    norm_num [map_to_cell, h1, h2]

/-- Helper: once `_simulated` is set, every later `flush` call is a
no-op, so the state is absorbing. -/
theorem runFlushes_of_simulated (fails : List Bool) (s : DMXOutput.St)
    (h : s.simulated = true) : DMXOutput.runFlushes fails s = s := by
  induction fails with
  | nil => rfl
  | cons f fs ih =>
    simp only [DMXOutput.runFlushes, List.foldl_cons] at *
    rw [show DMXOutput.flush f s = s by simp [DMXOutput.flush, h]]
    exact ih

/-- Helper: from a live state with `n ≤ 5` recorded errors, the output
ends up simulated exactly when the failures pushed the counter past 5. -/
theorem runFlushes_simulated_iff (fails : List Bool) (n : ℕ) (hn : n ≤ 5) :
    (DMXOutput.runFlushes fails ⟨false, n⟩).simulated = true ↔
      6 ≤ n + fails.count true := by
  induction fails generalizing n with
  | nil =>
    simp only [DMXOutput.runFlushes, List.foldl_nil, List.count_nil]
    constructor
    · intro h; exact absurd h (by simp)
    · omega
  | cons f fs ih =>
    simp only [DMXOutput.runFlushes, List.foldl_cons] at *
    cases f
    · rw [show DMXOutput.flush false ⟨false, n⟩ = ⟨false, n⟩ from rfl, ih n hn]
      simp [List.count_cons]
    · by_cases h5 : n + 1 > 5
      · rw [show DMXOutput.flush true ⟨false, n⟩ = ⟨true, n + 1⟩ by
          simp [DMXOutput.flush, h5]]
        rw [show (List.foldl (fun s f => DMXOutput.flush f s) ⟨true, n + 1⟩ fs) =
            (⟨true, n + 1⟩ : DMXOutput.St) from runFlushes_of_simulated fs _ rfl]
        simp [List.count_cons]
        omega
      · rw [show DMXOutput.flush true ⟨false, n⟩ = ⟨false, n + 1⟩ by
          simp [DMXOutput.flush, h5]]
        rw [ih (n + 1) (by omega)]
        simp [List.count_cons]
        omega

/-- **C7, counterexample.**  The claim states that exactly 5
consecutive transport failures put the engine in the `Degraded`
(simulated) state.  Starting from a live output (`HAS_OLA`, zero
errors), 5 consecutive failures leave `_simulated` false: the source
degrades only when `_send_errors > 5`, i.e. on the 6th failure. -/
theorem c7_five_failures_not_degraded :
    (DMXOutput.runFlushes (List.replicate 5 true) (DMXOutput.init true)).simulated
      = false := by
  decide

/-- **C7, amended.**  For every sequence of flush attempts starting
from a live output, the engine is in the degraded (simulated) state
exactly when the sequence contains at least 6 failures — cumulative,
not consecutive: a success never resets `_send_errors`, and because
the degraded state is absorbing (no `reset` method exists on
`DMXOutput`), it is never left. -/
theorem c7_degraded_after_six_failures (fails : List Bool) :
    (DMXOutput.runFlushes fails (DMXOutput.init true)).simulated = true ↔
      6 ≤ fails.count true := by
  have h := runFlushes_simulated_iff fails 0 (by norm_num)
  simpa using h

/-- Helper: `runGrid` acts on each in-range cell independently, as
`runCell` over the per-tick membership booleans. -/
theorem runGrid_apply (inputs : List (List (ℕ × ℕ))) (g : DmxAudioBridge.Grid)
    (r c : ℕ) (hr : r < DmxAudioBridge.MATRIX_ROWS)
    (hc : c < DmxAudioBridge.MATRIX_COLS) :
    DmxAudioBridge.runGrid inputs g r c =
      DmxAudioBridge.runCell (inputs.map fun inp => decide ((r, c) ∈ inp)) (g r c) := by
  induction inputs generalizing g with
  | nil => rfl
  | cons inp rest ih =>
    simp only [DmxAudioBridge.runGrid, DmxAudioBridge.runCell, List.foldl_cons,
      List.map_cons] at *
    rw [ih]
    congr 1
    simp [DmxAudioBridge.updateGrid, hr, hc]

/-- **C8, confirmed.**  For any in-range cell starting inactive with
zero counters, `ACTIVATE_N − 1 = 2` consecutive ticks of raw detection
leave it inactive and the 3rd consecutive detection activates it;
symmetrically, the active cell stays active through
`DEACTIVATE_N − 1 = 5` consecutive ticks of absence and is deactivated
on the 6th. -/
theorem c8_hysteresis_thresholds (r c : ℕ)
    (hr : r < DmxAudioBridge.MATRIX_ROWS) (hc : c < DmxAudioBridge.MATRIX_COLS) :
    ((DmxAudioBridge.runGrid (List.replicate 2 [(r, c)])
        DmxAudioBridge.initGrid) r c).state = false ∧
    ((DmxAudioBridge.runGrid (List.replicate 3 [(r, c)])
        DmxAudioBridge.initGrid) r c).state = true ∧
    ((DmxAudioBridge.runGrid (List.replicate 3 [(r, c)] ++ List.replicate 5 [])
        DmxAudioBridge.initGrid) r c).state = true ∧
    ((DmxAudioBridge.runGrid (List.replicate 3 [(r, c)] ++ List.replicate 6 [])
        DmxAudioBridge.initGrid) r c).state = false := by
  have e1 : ∀ k, (List.replicate k [(r, c)]).map
      (fun inp => decide ((r, c) ∈ inp)) = List.replicate k true := by
    intro k; rw [List.map_replicate]; simp
  have e2 : ∀ k m, ((List.replicate k [(r, c)] ++
        List.replicate m ([] : List (ℕ × ℕ)))).map
      (fun inp => decide ((r, c) ∈ inp)) =
      List.replicate k true ++ List.replicate m false := by
    intro k m
    rw [List.map_append, List.map_replicate, List.map_replicate]; simp
  refine ⟨?_, ?_, ?_, ?_⟩ <;>
    rw [runGrid_apply _ _ _ _ hr hc] <;>
    simp only [DmxAudioBridge.initGrid]
  · rw [e1]; decide
  · rw [e1]; decide
  · rw [e2]; decide
  · rw [e2]; decide

/-- **C8, witness.**  The theorem applied at the concrete cell
`(0, 0)`. -/
theorem c8_hysteresis_thresholds_witness :
    ((DmxAudioBridge.runGrid (List.replicate 2 [(0, 0)])
        DmxAudioBridge.initGrid) 0 0).state = false ∧
    ((DmxAudioBridge.runGrid (List.replicate 3 [(0, 0)])
        DmxAudioBridge.initGrid) 0 0).state = true ∧
    ((DmxAudioBridge.runGrid (List.replicate 3 [(0, 0)] ++ List.replicate 5 [])
        DmxAudioBridge.initGrid) 0 0).state = true ∧
    ((DmxAudioBridge.runGrid (List.replicate 3 [(0, 0)] ++ List.replicate 6 [])
        DmxAudioBridge.initGrid) 0 0).state = false :=
  c8_hysteresis_thresholds 0 0 (by decide) (by decide)

/-- Helper: a cell's filtered state can only become active on a tick
where the cell is seen in the raw input. -/
theorem updateCell_state_true (b : Bool) (s : DmxAudioBridge.CellSt)
    (h : (DmxAudioBridge.updateCell b s).state = true) :
    b = true ∨ s.state = true := by
  cases b
  · right
    by_contra hs
    rw [Bool.not_eq_true] at hs
    simp [DmxAudioBridge.updateCell, hs] at h
  · left; rfl

/-- Helper: an active cell of `runGrid inputs g` was raw-active in
some input tick, or was already active in `g`. -/
theorem runGrid_state_true (inputs : List (List (ℕ × ℕ)))
    (g : DmxAudioBridge.Grid) (r c : ℕ)
    (h : (DmxAudioBridge.runGrid inputs g r c).state = true) :
    (∃ inp ∈ inputs, (r, c) ∈ inp) ∨ (g r c).state = true := by
  induction inputs generalizing g with
  | nil => right; exact h
  | cons inp rest ih =>
    simp only [DmxAudioBridge.runGrid, List.foldl_cons] at h
    rcases ih (DmxAudioBridge.updateGrid inp g) h with hmem | hst
    · obtain ⟨i, hi, hm⟩ := hmem
      exact Or.inl ⟨i, List.mem_cons_of_mem _ hi, hm⟩
    · simp only [DmxAudioBridge.updateGrid] at hst
      split_ifs at hst with hb
      · rcases updateCell_state_true _ _ hst with hbt | hgs
        · exact Or.inl ⟨inp, List.mem_cons_self _ _, of_decide_eq_true hbt⟩
        · exact Or.inr hgs
      · exact Or.inr hst

/-- **C1, counterexample.**  The claim states that in every reachable
state of the activation update at most one cell is active.  The filter
debounces each grid cell independently (there is no single
`active_cell` slot in `_update_from_active_cells`): after three ticks
whose raw input is cell `(0,0)` followed by three ticks whose raw
input is cell `(0,1)` — one raw cell per tick — cell `(0,0)` is still
active (only 3 < 6 absent ticks) while `(0,1)` has just activated, so
two cells are active simultaneously. -/
theorem c1_two_cells_active :
    DmxAudioBridge.activeCount
      (DmxAudioBridge.runGrid
        (List.replicate 3 [(0, 0)] ++ List.replicate 3 [(0, 1)])
        DmxAudioBridge.initGrid) = 2 := by
  decide

/-- **C1, amended.**  The filter keeps per-cell state, so several
cells can be active at once; what holds for every reachable state
(any input sequence from the all-inactive state) is that every cell
whose filtered state is active appeared in at least one of the raw
per-tick inputs — the active set is contained in the set of cells
ever seen raw-active. -/
theorem c1_active_cell_was_raw_input (inputs : List (List (ℕ × ℕ))) (r c : ℕ)
    (h : ((DmxAudioBridge.runGrid inputs DmxAudioBridge.initGrid) r c).state = true) :
    ∃ inp ∈ inputs, (r, c) ∈ inp := by
  rcases runGrid_state_true inputs DmxAudioBridge.initGrid r c h with hmem | hst
  · exact hmem
  · exact absurd hst (by simp [DmxAudioBridge.initGrid, DmxAudioBridge.initCell])

/-- **C1, witness.**  The amended theorem applied to the input
sequence of three ticks of raw cell `(0, 0)`, after which `(0, 0)`
is active. -/
theorem c1_active_cell_was_raw_input_witness :
    ∃ inp ∈ List.replicate 3 [((0:ℕ), (0:ℕ))], ((0:ℕ), (0:ℕ)) ∈ inp :=
  c1_active_cell_was_raw_input (List.replicate 3 [(0, 0)]) 0 0 (by decide)

/-- **C2, code bug.**  The claim states that a `Some → Some'`
transition of the active cell issues a note-off (voice release) for
the outgoing cell before the note-on for the incoming cell.  The
hand-over path of `GridUI.handle_zone_activity_3d` calls
`self.sound_engine.release_cell(...)`, but `SoundEngine` defines no
`release_cell` method (its stop method is `stop_cell`), so at the
concrete transition below — previous active cell `"0,0"`, new raw
cell `(0, 1)` with a configured wav — the call raises
`AttributeError` and neither the note-off nor the note-on is issued. -/
theorem c2_release_cell_attribute_error :
    ("stop_cell" ∈ SoundEngineModel.soundEngineMethods ∧
     "release_cell" ∉ SoundEngineModel.soundEngineMethods) ∧
    handle_zone_activity_3d
      (fun _ _ => some { cell_id := "0,1", name := "n", x_min := 1, x_max := 2,
                         y_min := 0, y_max := 1, wav := "a.wav" })
      ⟨some "0,0"⟩ (some (0, 1)) =
      .error (.attributeError "release_cell") :=
  ⟨by decide, rfl⟩

end Claims
